import Mathlib

/-!
Verification development for the tacit-texview thumbnail / image-aggregate core
(`Src/TacitImage.cpp`).  The data model and the operations are shallowly
embedded: pure C++ member functions become Lean functions over an explicit
`TacitImage` state, the global worker counter becomes a field of an explicit
system state, and each external effect (file info queries, decoders, the GL
decode round trip, clock reads) is an input provided through an environment
record.  Machine floats in the thumbnail scale computation are modelled by
exact rationals.
-/

namespace TacitView

/-- One RGBA pixel, 8 bits per channel (a `tPixel` / `tColouri`). -/
structure tPixel where
  R : Nat
  G : Nat
  B : Nat
  A : Nat
deriving DecidableEq, Repr

/-- The fully transparent fill colour `tPixel::transparent`. -/
def tPixel.transparent : tPixel := ⟨0, 0, 0, 0⟩

/-- The colour `tColouri::black` returned by `GetPixel` with no data (opaque black). -/
def tPixel.black : tPixel := ⟨0, 0, 0, 255⟩

/-- A flat 2D pixel buffer (`tImage::tPicture`).  `Pix` gives the pixel at
(x, y) with row 0 at the bottom; reads outside the `Width`/`Height` bounds are
unspecified in the source and the claims never depend on them. -/
structure tPicture where
  Width : Nat
  Height : Nat
  Pix : Nat → Nat → tPixel

/-- A picture is valid iff it has nonzero area (zero area is the unset state). -/
def tPicture.IsValid (p : tPicture) : Bool := 0 < p.Width && 0 < p.Height

/-- The invalid / cleared picture (result of `tPicture::Clear` or default construction). -/
def tPicture.invalid : tPicture := ⟨0, 0, fun _ _ => tPixel.black⟩

/-- Modelled from the spec: `tPicture::IsOpaque` (Tacent library, not under
`src/`): true iff every pixel's alpha is fully opaque (255). -/
def tPicture.IsOpaque (p : tPicture) : Bool :=
  decide (∀ x < p.Width, ∀ y < p.Height, (p.Pix x y).A = 255)

/-- A picture of the given size filled with one colour (`tPicture::Set(w, h, colour)`). -/
def tPicture.fill (w h : Nat) (c : tPixel) : tPicture := ⟨w, h, fun _ _ => c⟩

/-- Writing the rectangle of `src` into `dst` at offset (ox, oy): the functional
form of the nested `SetPixel(ox + x, oy + y, src.GetPixel(x, y))` loops used by
the alt-composite builders. -/
def tPicture.blit (dst src : tPicture) (ox oy : Nat) : tPicture :=
  ⟨dst.Width, dst.Height, fun x y =>
    if ox ≤ x ∧ x < ox + src.Width ∧ oy ≤ y ∧ y < oy + src.Height then
      src.Pix (x - ox) (y - oy)
    else
      dst.Pix x y⟩

/-- Modelled from the spec: `tPicture::Resample` (Tacent library, not under
`src/`): replaces the contents with a filtered resize to the target size; the
filter kind affects only the interpolation kernel, never the layout, so the
kernel is modelled as direct sampling.  A total no-op on invalid input. -/
def tPicture.Resample (p : tPicture) (tw th : Nat) : tPicture :=
  if p.IsValid ∧ 0 < tw ∧ 0 < th then
    ⟨tw, th, fun x y => p.Pix (x * p.Width / tw) (y * p.Height / th)⟩
  else p

/-- Modelled from the spec: `tPicture::Crop` (Tacent library, not under
`src/`): reframes around the image centre to the target size, padding new area
with the fill colour when the target is larger and truncating symmetrically
when smaller.  A total no-op on invalid input. -/
def tPicture.Crop (p : tPicture) (tw th : Nat) (fillColour : tPixel) : tPicture :=
  if p.IsValid ∧ 0 < tw ∧ 0 < th then
    ⟨tw, th, fun x y =>
      let sx : Int := (x : Int) + ((p.Width : Int) - (tw : Int)) / 2
      let sy : Int := (y : Int) + ((p.Height : Int) - (th : Int)) / 2
      if 0 ≤ sx ∧ sx < (p.Width : Int) ∧ 0 ≤ sy ∧ sy < (p.Height : Int) then
        p.Pix sx.toNat sy.toNat
      else fillColour⟩
  else p

/-- The closed pixel-format enumeration, restricted to the cases `TacitImage.cpp`
inspects. -/
inductive tPixelFormat where
  | Invalid
  | R8G8B8
  | R8G8B8A8
  | BC1DXT1
  | BC1DXT1BA
  | BC2DXT3
  | BC3DXT5
deriving DecidableEq, Repr

/-- `tImage::tIsNormalFormat`: true for the uncompressed byte-per-channel formats. -/
def tIsNormalFormat : tPixelFormat → Bool
  | .R8G8B8 => true
  | .R8G8B8A8 => true
  | _ => false

/-- `tImage::tGetBytesPerPixel` for the normal formats (0 otherwise). -/
def tGetBytesPerPixel : tPixelFormat → Nat
  | .R8G8B8 => 3
  | .R8G8B8A8 => 4
  | _ => 0

/-- `tImage::tGetPixelFormatName`. -/
def tGetPixelFormatName : tPixelFormat → String
  | .Invalid => "Invalid"
  | .R8G8B8 => "R8G8B8"
  | .R8G8B8A8 => "R8G8B8A8"
  | .BC1DXT1 => "BC1DXT1"
  | .BC1DXT1BA => "BC1DXT1BA"
  | .BC2DXT3 => "BC2DXT3"
  | .BC3DXT5 => "BC3DXT5"

/-- One single-surface compressed container (`tImage::tTexture`): a mip chain of
compressed layers.  `DecodedPix level` is the pixel content the hardware decode
bridge reads back for that mip level; per the spec's bridge contract the bridge
produces a buffer equivalent to the layer at that level's resolution.
`OpaqueMarker` is the format-level opacity flag `tTexture::IsOpaque`. -/
structure tTexture where
  TexWidth : Nat
  TexHeight : Nat
  NumLayers : Nat
  PixelFormat : tPixelFormat
  OpaqueMarker : Bool
  DecodedPix : Nat → Nat → Nat → tPixel

/-- A six-sided cube container (`tImage::tCubemap`): one `tTexture` per side. -/
structure tCubemap where
  PosX : tTexture
  NegX : tTexture
  PosY : tTexture
  NegY : tTexture
  PosZ : tTexture
  NegZ : tTexture

/-- Modelled from the spec: `tCubemap::AllSidesOpaque` (Tacent library, not
under `src/`): the conjunction of the six per-face opacity markers. -/
def tCubemap.AllSidesOpaque (c : tCubemap) : Bool :=
  c.PosX.OpaqueMarker && c.NegX.OpaqueMarker && c.PosY.OpaqueMarker &&
  c.NegY.OpaqueMarker && c.PosZ.OpaqueMarker && c.NegZ.OpaqueMarker

/-- The file types `TacitImage.cpp` distinguishes: DDS is special-cased, every
other known raster type goes through `tPicture::Load`. -/
inductive tFileType where
  | Unknown
  | DDS
  | PNG
  | TGA
  | JPG
deriving DecidableEq, Repr

/-- The derived info record populated once on successful load. -/
structure ImageInfo where
  InfoWidth : Nat
  InfoHeight : Nat
  PixelFormatName : String
  SrcFileBitDepth : Int
  InfoOpaqueFlag : Bool
  FileSizeBytes : Nat
  MemSizeBytes : Nat
  Mipmaps : Nat
deriving Repr

/-- The unpopulated info record of a fresh aggregate. -/
def ImageInfo.empty : ImageInfo := ⟨0, 0, "", 0, false, 0, 0, 0⟩

/-- File identity as returned by `tSystem::tGetFileInfo`. -/
structure tFileInfo where
  FileSize : Nat
  CreationTime : Nat
  ModificationTime : Nat
deriving DecidableEq, Repr

/-- The state of one `TacitImage` aggregate: every data member of the C++ class
that the claims touch.  `LoadedTime = -1` is the unloaded sentinel.
`ThumbnailThreadFlag` is the `std::atomic_flag` (`true` = set);
the thread object itself is tracked by the surrounding system state. -/
structure TacitImage where
  Filename : String
  Filetype : tFileType
  FileModTime : Nat
  FileSizeB : Nat
  DDSCubemap : Option tCubemap
  DDSTexture2D : Option tTexture
  Pictures : List tPicture
  AltPicture : tPicture
  AltPictureEnabled : Bool
  TexIDPrimary : Nat
  TexIDAlt : Nat
  Info : ImageInfo
  LoadedTime : Int
  ThumbnailRequested : Bool
  ThumbnailThreadRunning : Bool
  ThumbnailThreadFlag : Bool
  ThumbnailPicture : tPicture
  TexIDThumbnail : Nat

/-- A freshly constructed aggregate for a path (the two-argument constructor with
no file info available; `Filetype` is `tGetFileType` of the name). -/
def TacitImage.mkEmpty (name : String) (ft : tFileType) : TacitImage :=
  { Filename := name
    Filetype := ft
    FileModTime := 0
    FileSizeB := 0
    DDSCubemap := none
    DDSTexture2D := none
    Pictures := []
    AltPicture := tPicture.invalid
    AltPictureEnabled := false
    TexIDPrimary := 0
    TexIDAlt := 0
    Info := ImageInfo.empty
    LoadedTime := -1
    ThumbnailRequested := false
    ThumbnailThreadRunning := false
    ThumbnailThreadFlag := false
    ThumbnailPicture := tPicture.invalid
    TexIDThumbnail := 0 }

/-- Modelled from the spec: `TacitImage::IsLoaded` (declared in the missing
header `TacitImage.h`): the lifecycle flag that `Load` sets on success and
`Unload` resets by writing the sentinel `LoadedTime = -1`. -/
def TacitImage.IsLoaded (s : TacitImage) : Bool := s.LoadedTime ≠ -1

/-- `TacitImage::GetWidth`: the alt buffer when valid and enabled, else mip
level 0 of the primary chain when valid, else 0. -/
def TacitImage.GetWidth (s : TacitImage) : Nat :=
  if s.AltPicture.IsValid ∧ s.AltPictureEnabled then s.AltPicture.Width
  else
    match s.Pictures.head? with
    | some p => if p.IsValid then p.Width else 0
    | none => 0

/-- `TacitImage::GetHeight`: same fallback order as `GetWidth`. -/
def TacitImage.GetHeight (s : TacitImage) : Nat :=
  if s.AltPicture.IsValid ∧ s.AltPictureEnabled then s.AltPicture.Height
  else
    match s.Pictures.head? with
    | some p => if p.IsValid then p.Height else 0
    | none => 0

/-- `TacitImage::GetPixel`: same fallback order, with black as the default. -/
def TacitImage.GetPixel (s : TacitImage) (x y : Nat) : tPixel :=
  if s.AltPicture.IsValid ∧ s.AltPictureEnabled then s.AltPicture.Pix x y
  else
    match s.Pictures.head? with
    | some p => if p.IsValid then p.Pix x y else tPixel.black
    | none => tPixel.black

/-- `TacitImage::IsOpaque`: cube container first, then the single-surface
container's format marker, then the first primary picture, else true. -/
def TacitImage.IsOpaque (s : TacitImage) : Bool :=
  match s.DDSCubemap with
  | some cm => cm.AllSidesOpaque
  | none =>
    match s.DDSTexture2D with
    | some t => t.OpaqueMarker
    | none =>
      match s.Pictures.head? with
      | some p => if p.IsValid then p.IsOpaque else true
      | none => true

/-- `TacitImage::GetMemSizeBytes`: 4 bytes per pixel over the mip chain plus the
alt buffer when valid. -/
def TacitImage.GetMemSizeBytes (s : TacitImage) : Nat :=
  (s.Pictures.map (fun p => p.Width * p.Height * 4)).sum +
  (if s.AltPicture.IsValid then s.AltPicture.Width * s.AltPicture.Height * 4 else 0)

/-- `TacitImage::ConvertCubemapToPicture`: decodes the six faces through the GL
round trip in the fixed order PosZ (front first), NegZ, PosX, NegX, PosY, NegY,
each read back at the width and height of the PosX side's base level, and
appends the resulting pictures to the mip-chain list.  The guard refuses to do
anything if the cubemap is invalid or pictures already exist. -/
def TacitImage.ConvertCubemapToPicture (s : TacitImage) : TacitImage × Bool :=
  match s.DDSCubemap with
  | none => (s, false)
  | some cm =>
    if s.Pictures.length = 0 then
      let w := cm.PosX.TexWidth
      let h := cm.PosX.TexHeight
      let face : tTexture → tPicture := fun t => ⟨w, h, t.DecodedPix 0⟩
      ({ s with Pictures := s.Pictures ++
          [face cm.PosZ, face cm.NegZ, face cm.PosX, face cm.NegX, face cm.PosY, face cm.NegY] },
       true)
    else (s, false)

/-- `TacitImage::ConvertTexture2DToPicture`: decodes every mip level of the
single-surface container through the GL round trip; level `l` has dimensions
`max(1, w >>> l) x max(1, h >>> l)`.  Refuses if the container is invalid or
pictures already exist. -/
def TacitImage.ConvertTexture2DToPicture (s : TacitImage) : TacitImage × Bool :=
  match s.DDSTexture2D with
  | none => (s, false)
  | some t =>
    if s.Pictures.length = 0 then
      let w := t.TexWidth
      let h := t.TexHeight
      let mip : Nat → tPicture := fun l => ⟨max (w >>> l) 1, max (h >>> l) 1, t.DecodedPix l⟩
      ({ s with Pictures := s.Pictures ++ (List.range t.NumLayers).map mip }, true)
    else (s, false)

/-- `TacitImage::CreateAltPictureDDS2DMipmaps`: a horizontal strip, the mips
blitted left to right at y = 0 on a transparent canvas whose width is the sum
of the mip widths and whose height is `GetHeight()`. -/
def TacitImage.CreateAltPictureDDS2DMipmaps (s : TacitImage) : tPicture :=
  let width := (s.Pictures.map tPicture.Width).sum
  let height := s.GetHeight
  let start := tPicture.fill width height tPixel.transparent
  (s.Pictures.foldl
    (fun acc layer => (acc.1.blit layer acc.2 0, acc.2 + layer.Width))
    (start, 0)).1

/-- `TacitImage::CreateAltPictureDDSCubemap`: the 4-wide-by-3-tall cross.  Cell
offsets are in units of the first picture's width and height; the six pictures
(front, back, right, left, top, bottom in list order) are blitted at
(1,1), (3,1), (2,1), (0,1), (1,2), (1,0) on a transparent canvas. -/
def TacitImage.CreateAltPictureDDSCubemap (s : TacitImage) : tPicture :=
  match s.Pictures with
  | p0 :: p1 :: p2 :: p3 :: p4 :: p5 :: _ =>
    let w := p0.Width
    let h := p0.Height
    let alt := tPicture.fill (w * 4) (h * 3) tPixel.transparent
    let alt := alt.blit p0 w h
    let alt := alt.blit p1 (3 * w) h
    let alt := alt.blit p2 (2 * w) h
    let alt := alt.blit p3 0 h
    let alt := alt.blit p4 w (2 * h)
    let alt := alt.blit p5 w 0
    alt
  | _ => tPicture.invalid

/-- The environment a single `Load()` call observes: the outcome of each
decoder dispatch, the current time, and the file size query used for the info
record.  Decoders returning `none` model a decode failure (including a thrown
`tError`, which the enclosing try block turns into `success = false`). -/
structure LoadEnv where
  ddsCubemap : Option tCubemap
  ddsTexture2D : Option tTexture
  picture : Option tPicture
  pictureBitDepth : Int
  now : Int
  fileSize : Nat

/-- `TacitImage::Load()` (the no-argument overload, lines 76-167): already
loaded is a cheap refresh; unknown type fails; DDS tries the cubemap decoder
then the 2D decoder and converts whichever container loaded into pictures;
every other type appends a fresh `tPicture` to the mip-chain list and loads
into it (the append happens before the decode, so it survives a failed
decode).  On success the info record is filled and the alt composite is built
for cube sources and for mip-chained 2D sources. -/
def TacitImage.Load (s : TacitImage) (env : LoadEnv) : TacitImage × Bool :=
  if s.IsLoaded then ({ s with LoadedTime := env.now }, true)
  else if s.Filetype = tFileType.Unknown then (s, false)
  else
    let decodeRes : TacitImage × Bool × Int :=
      if s.Filetype = tFileType.DDS then
        match env.ddsCubemap with
        | some cm =>
          ({ s with DDSCubemap := some cm }, true,
           if tIsNormalFormat cm.PosX.PixelFormat then (tGetBytesPerPixel cm.PosX.PixelFormat : Int) * 8 else -1)
        | none =>
          match env.ddsTexture2D with
          | some t =>
            ({ s with DDSTexture2D := some t }, true,
             if tIsNormalFormat t.PixelFormat then (tGetBytesPerPixel t.PixelFormat : Int) * 8 else -1)
          | none => (s, false, -1)
      else
        match env.picture with
        | some p => ({ s with Pictures := s.Pictures ++ [p] }, true, env.pictureBitDepth)
        | none => ({ s with Pictures := s.Pictures ++ [tPicture.invalid] }, false, -1)
    let s1 := decodeRes.1
    let success := decodeRes.2.1
    let srcFileBitdepth := decodeRes.2.2
    let s2 :=
      if s.Filetype = tFileType.DDS then
        match s1.DDSCubemap with
        | some _ => (s1.ConvertCubemapToPicture).1
        | none =>
          match s1.DDSTexture2D with
          | some _ => (s1.ConvertTexture2DToPicture).1
          | none => s1
      else s1
    if success then
      let s3 := { s2 with LoadedTime := env.now }
      let format : tPixelFormat :=
        if s.Filetype = tFileType.DDS then
          match s3.DDSCubemap with
          | some cm => cm.PosX.PixelFormat
          | none =>
            match s3.DDSTexture2D with
            | some t => t.PixelFormat
            | none => tPixelFormat.Invalid
        else
          match s3.Pictures.head? with
          | some _ => if srcFileBitdepth = 24 then tPixelFormat.R8G8B8 else tPixelFormat.R8G8B8A8
          | none => tPixelFormat.Invalid
      let s4 := { s3 with Info :=
        { InfoWidth := s3.GetWidth
          InfoHeight := s3.GetHeight
          PixelFormatName := tGetPixelFormatName format
          SrcFileBitDepth := srcFileBitdepth
          InfoOpaqueFlag := s3.IsOpaque
          FileSizeBytes := env.fileSize
          MemSizeBytes := s3.GetMemSizeBytes
          Mipmaps := s3.Pictures.length } }
      let s5 :=
        match s4.DDSCubemap with
        | some _ => { s4 with AltPicture := s4.CreateAltPictureDDSCubemap }
        | none =>
          match s4.DDSTexture2D with
          | some _ =>
            if 1 < s4.Info.Mipmaps then { s4 with AltPicture := s4.CreateAltPictureDDS2DMipmaps }
            else s4
          | none => s4
      (s5, true)
    else (s2, false)

/-- `TacitImage::Unbind`: deletes and zeroes both GPU handle slots. -/
def TacitImage.Unbind (s : TacitImage) : TacitImage :=
  { s with TexIDPrimary := 0, TexIDAlt := 0 }

/-- `TacitImage::Unload`: a no-op success when not loaded; otherwise unbinds,
clears both containers, the alt buffer and its flag, the mip-chain list,
zeroes the memory-size field and resets the loaded sentinel.  Always true. -/
def TacitImage.Unload (s : TacitImage) : TacitImage × Bool :=
  if ¬s.IsLoaded then (s, true)
  else
    let s1 := s.Unbind
    ({ s1 with
        DDSTexture2D := none
        DDSCubemap := none
        AltPicture := tPicture.invalid
        AltPictureEnabled := false
        Pictures := []
        Info := { s1.Info with MemSizeBytes := 0 }
        LoadedTime := -1 }, true)

/-- Modelled from the spec: the fixed thumbnail target width `TacitImage::ThumbWidth`
(declared in the missing header; the spec fixes the target at 128). -/
def ThumbWidthC : Nat := 128

/-- Modelled from the spec: the fixed thumbnail target height `TacitImage::ThumbHeight`. -/
def ThumbHeightC : Nat := 128

/-- The embedded thumbnail cache format version constant (`int thumbVersion = 1`). -/
def thumbVersion : Nat := 1

/-- Modelled from the spec: `tMath::tHashData256` (Tacent library, not under
`src/`): a deterministic 256-bit chaining hash over the input words, seeded by
the previous digest. -/
def tHashData256 (data : List Nat) (iv : Nat) : Nat :=
  (data.foldl (fun h b => h * 257 + b + 1) iv) % 2 ^ 256

/-- Modelled from the spec: `tMath::tHashString256`: the string hashed as its
character codes. -/
def tHashString256 (s : String) (iv : Nat) : Nat :=
  tHashData256 (s.toList.map Char.toNat) iv

/-- The worker's cache-key computation (`GenerateThumbnail` lines 730-740): the
digest chains, in order, the format version constant, the source path, the file
size, the creation time, the modification time, and the target width and
height.  A failed `tGetFileInfo` leaves the zero-initialised info record. -/
def workerCacheHash (filename : String) (fi : tFileInfo) : Nat :=
  let h := tHashData256 [thumbVersion] 0
  let h := tHashString256 filename h
  let h := tHashData256 [fi.FileSize] h
  let h := tHashData256 [fi.CreationTime] h
  let h := tHashData256 [fi.ModificationTime] h
  let h := tHashData256 [ThumbWidthC] h
  tHashData256 [ThumbHeightC] h

/-- The cache filename for a digest: the key rendered as fixed-width
hexadecimal under the cache directory, with the fixed `.bin` extension
(`tsPrintf(hashFile, "%s%032|128X.bin", ThumbCacheDir, hash)`). -/
def cacheFileName (cacheDir : String) (hash : Nat) : String :=
  cacheDir ++ (Nat.toDigits 16 hash).asString ++ ".bin"

/-- Modelled from the spec: the self-describing cache chunk for one pixel
buffer (`tChunk`, Tacent library, not under `src/`): format tag, width,
height, then the raw RGBA bytes row by row. -/
def tPicture.serialize (p : tPicture) : List Nat :=
  [4, p.Width, p.Height] ++
  (List.range p.Height).flatMap (fun y =>
    (List.range p.Width).flatMap (fun x =>
      [(p.Pix x y).R, (p.Pix x y).G, (p.Pix x y).B, (p.Pix x y).A]))

/-- Modelled from the spec: `tMath::tRound` (Tacent library, not under
`src/`): round half up, on exact rationals standing in for the floats. -/
def tRound (x : ℚ) : Int := ⌊x + 1 / 2⌋

/-- The aspect-preserving intermediate size computation of `GenerateThumbnail`
(lines 777-791): the axis with the strictly smaller scale factor is set exactly
to the target and the other axis to the rounded scaled size (on a tie the
height branch runs).  The float arithmetic is modelled exactly by rationals. -/
def thumbnailDims (tw th srcW srcH : Nat) : Int × Int :=
  let scaleX : ℚ := (tw : ℚ) / (srcW : ℚ)
  let scaleY : ℚ := (th : ℚ) / (srcH : ℚ)
  if scaleX < scaleY then ((tw : Int), tRound ((srcH : ℚ) * scaleX))
  else (tRound ((srcW : ℚ) * scaleY), (th : Int))

/-- The worker's resample-then-centre-crop stage applied to the private full
copy's primary picture (lines 777-800). -/
def thumbProcess (pic : tPicture) : tPicture :=
  let dims := thumbnailDims ThumbWidthC ThumbHeightC pic.Width pic.Height
  (pic.Resample dims.1.toNat dims.2.toNat).Crop ThumbWidthC ThumbHeightC tPixel.transparent

/-- The environment one worker run observes: the file identity query, whether
the cache file for the computed key exists (and its deserialized content),
whether the headless GL context could be created, and the environment of the
private load. -/
structure GenEnv where
  fileInfo : Option tFileInfo
  cacheHit : Option tPicture
  contextOk : Bool
  loadEnv : LoadEnv
  cacheDir : String

/-- A cache file write: destination name and chunk bytes. -/
structure CacheWrite where
  name : String
  content : List Nat
deriving DecidableEq

/-- The cache key one worker run computes: the digest over the 7-tuple of
format version, path, file size, creation time, modification time and the two
target dimensions, with a failed `tGetFileInfo` contributing the
zero-initialised record. -/
def workerCacheKey (s : TacitImage) (env : GenEnv) : Nat :=
  workerCacheHash s.Filename ((env.fileInfo).getD ⟨0, 0, 0⟩)

/-- The cache filename one worker run uses. -/
def workerCacheFile (s : TacitImage) (env : GenEnv) : String :=
  cacheFileName env.cacheDir (workerCacheKey s env)

/-- `TacitImage::GenerateThumbnail` (the worker body): a no-op when the
thumbnail buffer is already valid; else computes the cache key and, on a hit,
deserializes the cached chunk directly; on a miss (after acquiring a headless
context for DDS sources; failure to create one aborts the request) loads a
private aggregate for the same path, resamples and centre-crops its primary
picture, stores the result into the thumbnail buffer and writes it to the
cache under the computed key.  Returns the new state and the cache write, if
any. -/
def TacitImage.GenerateThumbnail (s : TacitImage) (env : GenEnv) :
    TacitImage × Option CacheWrite :=
  if s.ThumbnailPicture.IsValid then (s, none)
  else
    let hashFile := workerCacheFile s env
    match env.cacheHit with
    | some cached => ({ s with ThumbnailPicture := cached }, none)
    | none =>
      if s.Filetype = tFileType.DDS ∧ env.contextOk = false then (s, none)
      else
        let loader := ((TacitImage.mkEmpty s.Filename s.Filetype).Load env.loadEnv).1
        match loader.Pictures.head? with
        | none => (s, none)
        | some pic =>
          let thumb := thumbProcess pic
          ({ s with ThumbnailPicture := thumb }, some ⟨hashFile, thumb.serialize⟩)

/-- `tMath::tClampMin` on integers. -/
def tClampMin (v m : Int) : Int := max v m

/-- The worker budget: leave two cores free, but always allow at least two
workers (`tClampMin(tGetNumCores() - 2, 2)`). -/
def numThreadsMax (cores : Int) : Int := tClampMin (cores - 2) 2

/-- The process-wide system state: the global running-worker counter
(`TacitImage::ThumbnailNumThreadsRunning`), one aggregate per index, and
whether the spawned worker of each aggregate has not yet returned. -/
structure ThumbSys where
  numThreadsRunning : Int
  imgs : Nat → TacitImage
  pending : Nat → Bool

/-- The initial process state: counter zero, every aggregate fresh. -/
def ThumbSys.init (names : Nat → String) (fts : Nat → tFileType) : ThumbSys :=
  { numThreadsRunning := 0
    imgs := fun i => TacitImage.mkEmpty (names i) (fts i)
    pending := fun _ => false }

/-- `TacitImage::RequestThumbnail` on aggregate `i`: a no-op when already
requested; silently deferred (no state change) when the counter is at or above
the budget; otherwise marks requested and running, increments the counter,
sets the completion flag and spawns the worker. -/
def requestStep (cores : Int) (i : Nat) (sys : ThumbSys) : ThumbSys :=
  let s := sys.imgs i
  if s.ThumbnailRequested then sys
  else if numThreadsMax cores ≤ sys.numThreadsRunning then sys
  else
    { numThreadsRunning := sys.numThreadsRunning + 1
      imgs := Function.update sys.imgs i
        { s with ThumbnailRequested := true
                 ThumbnailThreadRunning := true
                 ThumbnailThreadFlag := true }
      pending := Function.update sys.pending i true }

/-- The worker of aggregate `i` runs to completion: its body is
`GenerateThumbnail` followed by clearing the completion flag, after which the
thread function has returned. -/
def workerDoneStep (env : GenEnv) (i : Nat) (sys : ThumbSys) : ThumbSys :=
  if sys.pending i then
    { sys with
        imgs := Function.update sys.imgs i
          { ((sys.imgs i).GenerateThumbnail env).1 with ThumbnailThreadFlag := false }
        pending := Function.update sys.pending i false }
  else sys

/-- `TacitImage::BindThumbnail` on aggregate `i`: 0 when not requested; a
cleared completion flag (test-and-set returning false) joins the finished
worker, clears the running flag and decrements the global counter; a still
running worker yields 0; otherwise a valid thumbnail buffer is bound (lazily
creating the GPU handle from `newTexId`) and an invalid one yields the
not-available sentinel 0. -/
def bindStep (newTexId : Nat) (i : Nat) (sys : ThumbSys) : ThumbSys × Nat :=
  let s := sys.imgs i
  if ¬s.ThumbnailRequested then (sys, 0)
  else
    let joined := s.ThumbnailThreadFlag = false
    let s1 := { s with ThumbnailThreadFlag := true }
    let s2 := if joined then { s1 with ThumbnailThreadRunning := false } else s1
    let cnt := if joined then sys.numThreadsRunning - 1 else sys.numThreadsRunning
    if s2.ThumbnailThreadRunning then
      ({ sys with imgs := Function.update sys.imgs i s2, numThreadsRunning := cnt }, 0)
    else if s2.ThumbnailPicture.IsValid then
      if s2.TexIDThumbnail ≠ 0 then
        ({ sys with imgs := Function.update sys.imgs i s2, numThreadsRunning := cnt },
         s2.TexIDThumbnail)
      else if newTexId = 0 then
        ({ sys with imgs := Function.update sys.imgs i s2, numThreadsRunning := cnt }, 0)
      else
        let s3 := { s2 with TexIDThumbnail := newTexId }
        ({ sys with imgs := Function.update sys.imgs i s3, numThreadsRunning := cnt }, newTexId)
    else
      ({ sys with imgs := Function.update sys.imgs i s2, numThreadsRunning := cnt }, 0)

/-- `TacitImage::UnrequestThumbnail` on aggregate `i`: resets the requested
flag exactly when requested, not running, and the result buffer is invalid. -/
def unrequestStep (i : Nat) (sys : ThumbSys) : ThumbSys :=
  let s := sys.imgs i
  if s.ThumbnailRequested ∧ ¬s.ThumbnailThreadRunning ∧ ¬s.ThumbnailPicture.IsValid then
    { sys with imgs := Function.update sys.imgs i { s with ThumbnailRequested := false } }
  else sys

/-- The events the main thread and the workers can interleave. -/
inductive ThumbEvent where
  | request (i : Nat)
  | workerDone (env : GenEnv) (i : Nat)
  | bind (newTexId : Nat) (i : Nat)
  | unrequest (i : Nat)

/-- One event applied to the system state. -/
def thumbStep (cores : Int) : ThumbEvent → ThumbSys → ThumbSys
  | .request i, sys => requestStep cores i sys
  | .workerDone env i, sys => workerDoneStep env i sys
  | .bind t i, sys => (bindStep t i sys).1
  | .unrequest i, sys => unrequestStep i sys

/-- A whole event trace applied in order. -/
def thumbRun (cores : Int) (evs : List ThumbEvent) (sys : ThumbSys) : ThumbSys :=
  evs.foldl (fun s e => thumbStep cores e s) sys

/-- The representation a pixel-level query reads from: the alt buffer, the
primary base mip, or nothing. -/
inductive ReadRep where
  | altBuf (p : tPicture)
  | primaryBuf (p : tPicture)
  | nothing

/-- The common fallback selector of the three queries: alt buffer when valid
and enabled, else the valid base mip of the primary chain, else nothing. -/
def TacitImage.readRep (s : TacitImage) : ReadRep :=
  if s.AltPicture.IsValid ∧ s.AltPictureEnabled then .altBuf s.AltPicture
  else
    match s.Pictures.head? with
    | some p => if p.IsValid then .primaryBuf p else .nothing
    | none => .nothing

/-- The width the selected representation reports. -/
def ReadRep.repWidth : ReadRep → Nat
  | .altBuf p => p.Width
  | .primaryBuf p => p.Width
  | .nothing => 0

/-- The height the selected representation reports. -/
def ReadRep.repHeight : ReadRep → Nat
  | .altBuf p => p.Height
  | .primaryBuf p => p.Height
  | .nothing => 0

/-- The pixel the selected representation reports. -/
def ReadRep.repPixel (r : ReadRep) (x y : Nat) : tPixel :=
  match r with
  | .altBuf p => p.Pix x y
  | .primaryBuf p => p.Pix x y
  | .nothing => tPixel.black

/-- C7: `GetWidth`, `GetHeight` and `GetPixel` all read through one and the
same fallback order — the alt buffer when valid and enabled, else the valid
mip level 0 of the primary chain, else the zero / black defaults. -/
theorem query_fallback_order_uniform (s : TacitImage) (x y : Nat) :
    s.GetWidth = s.readRep.repWidth ∧
    s.GetHeight = s.readRep.repHeight ∧
    s.GetPixel x y = s.readRep.repPixel x y := by
  unfold TacitImage.GetWidth TacitImage.GetHeight TacitImage.GetPixel TacitImage.readRep
  refine ⟨?_, ?_, ?_⟩ <;>
  · split
    · rfl
    · rcases s.Pictures.head? with _ | p
      · rfl
      · by_cases hp : p.IsValid = true <;> simp [hp, ReadRep.repWidth, ReadRep.repHeight, ReadRep.repPixel]

/-- The request step never pushes the counter above the budget. -/
lemma requestStep_counter_le (cores : Int) (i : Nat) (sys : ThumbSys)
    (h : sys.numThreadsRunning ≤ numThreadsMax cores) :
    (requestStep cores i sys).numThreadsRunning ≤ numThreadsMax cores := by
  simp only [requestStep]
  split_ifs with h1 h2
  · exact h
  · exact h
  · show sys.numThreadsRunning + 1 ≤ numThreadsMax cores
    omega

/-- The bind step never increases the counter. -/
lemma bindStep_counter_le (t i : Nat) (sys : ThumbSys) :
    (bindStep t i sys).1.numThreadsRunning ≤ sys.numThreadsRunning := by
  simp only [bindStep]
  split_ifs <;> dsimp only <;> omega

/-- The worker-completion step leaves the counter unchanged. -/
lemma workerDoneStep_counter (env : GenEnv) (i : Nat) (sys : ThumbSys) :
    (workerDoneStep env i sys).numThreadsRunning = sys.numThreadsRunning := by
  simp only [workerDoneStep]
  split <;> rfl

/-- The unrequest step leaves the counter unchanged. -/
lemma unrequestStep_counter (i : Nat) (sys : ThumbSys) :
    (unrequestStep i sys).numThreadsRunning = sys.numThreadsRunning := by
  simp only [unrequestStep]
  split <;> rfl

/-- Every step preserves the counter bound. -/
lemma thumbStep_counter_le (cores : Int) (ev : ThumbEvent) (sys : ThumbSys)
    (h : sys.numThreadsRunning ≤ numThreadsMax cores) :
    (thumbStep cores ev sys).numThreadsRunning ≤ numThreadsMax cores := by
  cases ev with
  | request i => exact requestStep_counter_le cores i sys h
  | workerDone env i => rw [thumbStep, workerDoneStep_counter]; exact h
  | bind t i => exact le_trans (bindStep_counter_le t i sys) h
  | unrequest i => rw [thumbStep, unrequestStep_counter]; exact h

/-- The counter bound is an inductive invariant of every event trace. -/
lemma thumbRun_counter_le (cores : Int) (evs : List ThumbEvent) (sys : ThumbSys)
    (h : sys.numThreadsRunning ≤ numThreadsMax cores) :
    (thumbRun cores evs sys).numThreadsRunning ≤ numThreadsMax cores := by
  induction evs generalizing sys with
  | nil => exact h
  | cons e rest ih => exact ih _ (thumbStep_counter_le cores e sys h)

/-- C1: over every trace of requests, worker completions, binds and
unrequests on any collection of aggregates, the process-wide running-worker
counter never exceeds `max(cores - 2, 2)`; a request issued while the counter
is at or above the bound changes no state at all; and the bound evaluates to 2
for 1, 2, 3 and 4 logical cores. -/
theorem thumbnail_worker_budget_bound (cores : Int) (evs : List ThumbEvent)
    (names : Nat → String) (fts : Nat → tFileType) :
    (thumbRun cores evs (ThumbSys.init names fts)).numThreadsRunning ≤ numThreadsMax cores ∧
    (∀ i sys, numThreadsMax cores ≤ sys.numThreadsRunning → requestStep cores i sys = sys) ∧
    numThreadsMax 1 = 2 ∧ numThreadsMax 2 = 2 ∧ numThreadsMax 3 = 2 ∧ numThreadsMax 4 = 2 := by
  refine ⟨?_, ?_, by decide, by decide, by decide, by decide⟩
  · refine thumbRun_counter_le cores evs _ ?_
    show (0 : Int) ≤ numThreadsMax cores
    have : (2 : Int) ≤ numThreadsMax cores := le_max_right _ _
    omega
  · intro i sys h
    simp only [requestStep]
    by_cases h1 : (sys.imgs i).ThumbnailRequested = true
    · rw [if_pos h1]
    · rw [if_neg h1, if_pos h]

/-- A concrete system state with the counter already at the 4-core bound. -/
def sysAtBound : ThumbSys :=
  { numThreadsRunning := 2
    imgs := fun _ => TacitImage.mkEmpty "a.png" tFileType.PNG
    pending := fun _ => false }

/-- Witness for C1: at 4 cores the bound is 2, a request arriving with the
counter already at 2 changes nothing, and a concrete trace stays within the
bound. -/
theorem thumbnail_worker_budget_bound_witness :
    numThreadsMax 4 ≤ sysAtBound.numThreadsRunning ∧
    requestStep 4 0 sysAtBound = sysAtBound ∧
    (thumbRun 4 [ThumbEvent.request 0, ThumbEvent.request 1, ThumbEvent.request 2]
      (ThumbSys.init (fun _ => "a.png") (fun _ => tFileType.PNG))).numThreadsRunning ≤
        numThreadsMax 4 := by
  have h := thumbnail_worker_budget_bound 4
    [ThumbEvent.request 0, ThumbEvent.request 1, ThumbEvent.request 2]
    (fun _ => "a.png") (fun _ => tFileType.PNG)
  exact ⟨by decide, h.2.1 0 sysAtBound (by decide), h.1⟩

/-- C8: calling `Load` on an already loaded aggregate is a cheap success that
refreshes only the last-accessed timestamp: the result is exactly the old
state with `LoadedTime` replaced, so the info record, the mip-chain pictures
and the alt buffer are untouched. -/
theorem load_refresh_when_loaded (s : TacitImage) (env : LoadEnv)
    (h : s.IsLoaded = true) :
    s.Load env = ({ s with LoadedTime := env.now }, true) ∧
    (s.Load env).1.Info = s.Info ∧
    (s.Load env).1.Pictures = s.Pictures ∧
    (s.Load env).1.AltPicture = s.AltPicture ∧
    (s.Load env).2 = true := by
  have hmain : s.Load env = ({ s with LoadedTime := env.now }, true) := by
    unfold TacitImage.Load
    rw [if_pos h]
  exact ⟨hmain, by rw [hmain], by rw [hmain], by rw [hmain], by rw [hmain]⟩

/-- A concrete loaded aggregate (timestamp set). -/
def loadedImg : TacitImage :=
  { TacitImage.mkEmpty "a.png" tFileType.PNG with LoadedTime := 5 }

/-- A concrete load environment for the refresh witness. -/
def refreshEnv : LoadEnv := ⟨none, none, none, 0, 9, 0⟩

/-- Witness for C8 at a concrete loaded aggregate. -/
theorem load_refresh_when_loaded_witness :
    loadedImg.IsLoaded = true ∧
    loadedImg.Load refreshEnv = ({ loadedImg with LoadedTime := 9 }, true) := by
  exact ⟨by decide, (load_refresh_when_loaded loadedImg refreshEnv (by decide)).1⟩

/-- A concrete single-surface container used to exhibit `Unload` clearing it. -/
def texSample : tTexture :=
  ⟨4, 4, 1, tPixelFormat.BC1DXT1, true, fun _ _ _ => tPixel.black⟩

/-- A concrete loaded aggregate still holding its single-surface container. -/
def ddsLoadedImg : TacitImage :=
  { TacitImage.mkEmpty "a.dds" tFileType.DDS with
      LoadedTime := 3
      DDSTexture2D := some texSample }

/-- Counterexample for C10: `Unload` also clears the single-surface compressed
container, a field outside the claim's modifies-only list, so "modifies only
the fields the spec lists" fails on this concrete loaded aggregate. -/
theorem unload_clears_container_cex :
    (ddsLoadedImg.Unload).1.DDSTexture2D = (none : Option tTexture) ∧
    ddsLoadedImg.DDSTexture2D = some texSample ∧
    (some texSample : Option tTexture) ≠ none := by
  refine ⟨rfl, rfl, by simp⟩

/-- C10 (amended): `Unload` always returns success; it leaves every thumbnail
field (requested flag, running flag, completion flag, thumbnail buffer, GPU
thumbnail handle) and the file identity unchanged; on an unloaded aggregate it
is the exact identity; and on a loaded one it changes exactly the GPU handles,
the two compressed containers, the alt buffer and its flag, the mip-chain
list, the memory-size field and the loaded sentinel. -/
theorem unload_frame_conditions (s : TacitImage) :
    (s.Unload).2 = true ∧
    (s.Unload).1.ThumbnailRequested = s.ThumbnailRequested ∧
    (s.Unload).1.ThumbnailPicture = s.ThumbnailPicture ∧
    (s.Unload).1.TexIDThumbnail = s.TexIDThumbnail ∧
    (s.Unload).1.ThumbnailThreadRunning = s.ThumbnailThreadRunning ∧
    (s.Unload).1.ThumbnailThreadFlag = s.ThumbnailThreadFlag ∧
    (s.Unload).1.Filename = s.Filename ∧
    (s.Unload).1.Filetype = s.Filetype ∧
    (s.Unload).1.FileModTime = s.FileModTime ∧
    (s.Unload).1.FileSizeB = s.FileSizeB ∧
    (s.IsLoaded = false → s.Unload = (s, true)) ∧
    (s.IsLoaded = true → s.Unload =
      ({ s with TexIDPrimary := 0, TexIDAlt := 0, DDSTexture2D := none, DDSCubemap := none,
                AltPicture := tPicture.invalid, AltPictureEnabled := false, Pictures := [],
                Info := { s.Info with MemSizeBytes := 0 }, LoadedTime := -1 }, true)) := by
  by_cases h : s.IsLoaded = true
  · have hU : s.Unload =
        ({ s with TexIDPrimary := 0, TexIDAlt := 0, DDSTexture2D := none, DDSCubemap := none,
                  AltPicture := tPicture.invalid, AltPictureEnabled := false, Pictures := [],
                  Info := { s.Info with MemSizeBytes := 0 }, LoadedTime := -1 }, true) := by
      simp only [TacitImage.Unload, TacitImage.Unbind, h]
      simp
    rw [hU]
    refine ⟨rfl, rfl, rfl, rfl, rfl, rfl, rfl, rfl, rfl, rfl, ?_, fun _ => rfl⟩
    intro hf
    rw [h] at hf
    cases hf
  · have hb : s.IsLoaded = false := by
      cases hv : s.IsLoaded
      · rfl
      · exact absurd hv h
    have hU : s.Unload = (s, true) := by
      simp only [TacitImage.Unload, hb]
      simp
    rw [hU]
    refine ⟨rfl, rfl, rfl, rfl, rfl, rfl, rfl, rfl, rfl, rfl, fun _ => rfl, ?_⟩
    intro hc
    rw [hb] at hc
    cases hc

/-- A concrete loaded aggregate for the `Unload` frame witness. -/
def unloadWitnessImg : TacitImage :=
  { TacitImage.mkEmpty "b.png" tFileType.PNG with LoadedTime := 2, TexIDPrimary := 11 }

/-- Witness for C10 (amended) at a concrete loaded aggregate. -/
theorem unload_frame_conditions_witness :
    unloadWitnessImg.IsLoaded = true ∧
    unloadWitnessImg.Unload =
      ({ unloadWitnessImg with
          TexIDPrimary := 0
          TexIDAlt := 0
          DDSTexture2D := none
          DDSCubemap := none
          AltPicture := tPicture.invalid
          AltPictureEnabled := false
          Pictures := []
          Info := { unloadWitnessImg.Info with MemSizeBytes := 0 }
          LoadedTime := -1 }, true) := by
  exact ⟨by decide, (unload_frame_conditions unloadWitnessImg).2.2.2.2.2.2.2.2.2.2.2 (by decide)⟩

/-- A load environment in which every decoder fails. -/
def failAllEnv : LoadEnv := ⟨none, none, none, 0, 7, 0⟩

/-- A fresh aggregate for a PNG path whose decode will fail. -/
def freshPng : TacitImage := TacitImage.mkEmpty "missing.png" tFileType.PNG

/-- Counterexample for C2: a failed non-DDS load does not leave the aggregate
in the pre-call empty state — the `tPicture` appended before the decode
attempt survives the failure, so the mip-chain list has one (invalid) entry
where the claim requires none. -/
theorem load_failure_appends_picture_cex :
    (freshPng.Load failAllEnv).2 = false ∧
    freshPng.Pictures = [] ∧
    (freshPng.Load failAllEnv).1.Pictures.length = 1 := by
  refine ⟨rfl, rfl, rfl⟩

/-- C2 (amended): a failed `Load` returns failure and leaves the info record,
the alt buffer and its flag, the loaded sentinel and both containers exactly
as before the call; the only state change is that for non-DDS file types one
invalid picture object has been appended to the mip-chain list. -/
theorem load_failure_leaves_prestate (s : TacitImage) (env : LoadEnv)
    (hnl : s.IsLoaded = false)
    (hcm : s.DDSCubemap = none) (ht2 : s.DDSTexture2D = none)
    (hfail : s.Filetype = tFileType.Unknown ∨
             (s.Filetype = tFileType.DDS ∧ env.ddsCubemap = none ∧ env.ddsTexture2D = none) ∨
             (s.Filetype ≠ tFileType.Unknown ∧ s.Filetype ≠ tFileType.DDS ∧
              env.picture = none)) :
    (s.Load env).2 = false ∧
    (s.Load env).1.Info = s.Info ∧
    (s.Load env).1.AltPicture = s.AltPicture ∧
    (s.Load env).1.AltPictureEnabled = s.AltPictureEnabled ∧
    (s.Load env).1.LoadedTime = s.LoadedTime ∧
    (s.Load env).1.DDSCubemap = none ∧
    (s.Load env).1.DDSTexture2D = none ∧
    (s.Load env).1.Pictures = s.Pictures ++
      (if s.Filetype = tFileType.Unknown ∨ s.Filetype = tFileType.DDS then []
       else [tPicture.invalid]) := by
  rcases hfail with hft | ⟨hft, hc, ht⟩ | ⟨hne1, hne2, hp⟩
  · have hU : s.Load env = (s, false) := by
      simp only [TacitImage.Load, hnl, hft]
      simp
    rw [hU]
    refine ⟨rfl, rfl, rfl, rfl, rfl, hcm, ht2, ?_⟩
    simp [hft]
  · have hU : s.Load env = (s, false) := by
      simp only [TacitImage.Load, hnl, hft, hc, ht, hcm, ht2]
      simp [hcm, ht2]
    rw [hU]
    refine ⟨rfl, rfl, rfl, rfl, rfl, hcm, ht2, ?_⟩
    simp [hft]
  · have hU : s.Load env = ({ s with Pictures := s.Pictures ++ [tPicture.invalid] }, false) := by
      simp only [TacitImage.Load, hnl, hne1, hne2, hp]
      simp
    rw [hU]
    refine ⟨rfl, rfl, rfl, rfl, rfl, hcm, ht2, ?_⟩
    simp [hne1, hne2]

/-- Witness for C2 (amended) at a fresh TGA aggregate whose decode fails. -/
theorem load_failure_leaves_prestate_witness :
    (TacitImage.mkEmpty "x.tga" tFileType.TGA).IsLoaded = false ∧
    ((TacitImage.mkEmpty "x.tga" tFileType.TGA).Load failAllEnv).2 = false ∧
    ((TacitImage.mkEmpty "x.tga" tFileType.TGA).Load failAllEnv).1.Pictures =
      (TacitImage.mkEmpty "x.tga" tFileType.TGA).Pictures ++
      (if tFileType.TGA = tFileType.Unknown ∨ tFileType.TGA = tFileType.DDS then []
       else [tPicture.invalid]) := by
  have h := load_failure_leaves_prestate (TacitImage.mkEmpty "x.tga" tFileType.TGA) failAllEnv
    (by decide) rfl rfl (Or.inr (Or.inr ⟨by decide, by decide, rfl⟩))
  exact ⟨by decide, h.1, h.2.2.2.2.2.2.2⟩

/-- C3: `IsOpaque` on a cube source is the conjunction of the six per-face
opacity markers, on a single-surface compressed source it is the container's
format-level opacity marker, and otherwise (no containers — the only case in
which the alt buffer is absent, by the well-formedness hypothesis) it is true
exactly when every pixel's alpha is fully opaque in the representation
`GetPixel` reads from. -/
theorem isopaque_follows_getpixel_representation (s : TacitImage)
    (hwf : s.AltPicture.IsValid = true → s.DDSCubemap.isSome ∨ s.DDSTexture2D.isSome) :
    (∀ cm, s.DDSCubemap = some cm →
       s.IsOpaque = (cm.PosX.OpaqueMarker && cm.NegX.OpaqueMarker && cm.PosY.OpaqueMarker &&
         cm.NegY.OpaqueMarker && cm.PosZ.OpaqueMarker && cm.NegZ.OpaqueMarker)) ∧
    (s.DDSCubemap = none → ∀ t, s.DDSTexture2D = some t → s.IsOpaque = t.OpaqueMarker) ∧
    (s.DDSCubemap = none → s.DDSTexture2D = none →
       (s.IsOpaque = true ↔
        ∀ x < s.GetWidth, ∀ y < s.GetHeight, (s.GetPixel x y).A = 255)) := by
  refine ⟨?_, ?_, ?_⟩
  · intro cm hcm
    simp [TacitImage.IsOpaque, hcm, tCubemap.AllSidesOpaque]
  · intro hcm t ht
    simp [TacitImage.IsOpaque, hcm, ht]
  · intro hcm ht
    have halt : s.AltPicture.IsValid = false := by
      cases hv : s.AltPicture.IsValid
      · rfl
      · rcases hwf hv with h | h
        · rw [hcm] at h
          simp at h
        · rw [ht] at h
          simp at h
    rcases hp : s.Pictures.head? with _ | p
    · simp [TacitImage.IsOpaque, hcm, ht, hp, TacitImage.GetWidth, halt]
    · by_cases hv : p.IsValid = true
      · simp [TacitImage.IsOpaque, hcm, ht, hp, hv, TacitImage.GetWidth, TacitImage.GetHeight,
              TacitImage.GetPixel, halt, tPicture.IsOpaque]
      · simp [TacitImage.IsOpaque, hcm, ht, hp, hv, TacitImage.GetWidth, halt]

/-- A concrete loaded raster aggregate with a 1-by-1 opaque base picture. -/
def opaqueImg : TacitImage :=
  { TacitImage.mkEmpty "c.png" tFileType.PNG with
      Pictures := [⟨1, 1, fun _ _ => tPixel.black⟩]
      LoadedTime := 1 }

/-- Witness for C3 at a concrete raster aggregate. -/
theorem isopaque_follows_getpixel_representation_witness :
    (opaqueImg.AltPicture.IsValid = true →
      opaqueImg.DDSCubemap.isSome ∨ opaqueImg.DDSTexture2D.isSome) ∧
    (opaqueImg.IsOpaque = true ↔
      ∀ x < opaqueImg.GetWidth, ∀ y < opaqueImg.GetHeight,
        (opaqueImg.GetPixel x y).A = 255) := by
  exact ⟨by decide,
    (isopaque_follows_getpixel_representation opaqueImg (by decide)).2.2 rfl rfl⟩

/-- The cache write of a worker run on the cache-miss path: a function of the
path, the file type, the decode environment and the computed cache filename
alone — never of the rest of the aggregate state, since the worker loads a
private copy. -/
lemma generateThumbnail_write (s : TacitImage) (env : GenEnv)
    (hinv : s.ThumbnailPicture.IsValid = false)
    (hmiss : env.cacheHit = none)
    (hdds : ¬(s.Filetype = tFileType.DDS ∧ env.contextOk = false)) :
    (s.GenerateThumbnail env).2 =
      match ((TacitImage.mkEmpty s.Filename s.Filetype).Load env.loadEnv).1.Pictures.head? with
      | none => none
      | some pic => some ⟨workerCacheFile s env, (thumbProcess pic).serialize⟩ := by
  unfold TacitImage.GenerateThumbnail
  rw [hinv, hmiss]
  simp only [Bool.false_eq_true, if_false]
  rw [if_neg hdds]
  cases hcase : ((TacitImage.mkEmpty s.Filename s.Filetype).Load env.loadEnv).1.Pictures.head? with
  | none => simp [hcase]
  | some pic => simp [hcase]

/-- C6: the worker's cache-key computation is a function of exactly the file
identity (path, size, creation time, modification time), the fixed version
constant and the fixed target dimensions: two runs — in arbitrary otherwise
different aggregate states, as across process restarts — agree on the 256-bit
digest and hence on the cache filename; and whenever the two runs also share
the file type, a pending (invalid) thumbnail, a cache miss, the context
outcome and the decode environment of the unchanged source, they write
byte-identical cache entries (same name, same chunk bytes), whatever the rest
of the two aggregate states is. -/
theorem thumbnail_cache_key_deterministic (s1 s2 : TacitImage) (env1 env2 : GenEnv)
    (hname : s1.Filename = s2.Filename)
    (hfi : env1.fileInfo = env2.fileInfo)
    (hdir : env1.cacheDir = env2.cacheDir) :
    workerCacheKey s1 env1 = workerCacheKey s2 env2 ∧
    workerCacheFile s1 env1 = workerCacheFile s2 env2 ∧
    (s1.Filetype = s2.Filetype →
     s1.ThumbnailPicture.IsValid = false →
     s2.ThumbnailPicture.IsValid = false →
     env1.cacheHit = none →
     env2.cacheHit = none →
     env1.contextOk = env2.contextOk →
     env1.loadEnv = env2.loadEnv →
      (s1.GenerateThumbnail env1).2 = (s2.GenerateThumbnail env2).2) := by
  have hk : workerCacheKey s1 env1 = workerCacheKey s2 env2 := by
    unfold workerCacheKey
    rw [hname, hfi]
  have hf : workerCacheFile s1 env1 = workerCacheFile s2 env2 := by
    unfold workerCacheFile
    rw [hk, hdir]
  refine ⟨hk, hf, ?_⟩
  intro hft hinv1 hinv2 hmiss1 hmiss2 hctx hload
  by_cases hdds : s1.Filetype = tFileType.DDS ∧ env1.contextOk = false
  · have hdds2 : s2.Filetype = tFileType.DDS ∧ env2.contextOk = false := by
      rw [← hft, ← hctx]
      exact hdds
    have e1 : (s1.GenerateThumbnail env1).2 = none := by
      unfold TacitImage.GenerateThumbnail
      rw [hinv1, hmiss1]
      simp [hdds]
    have e2 : (s2.GenerateThumbnail env2).2 = none := by
      unfold TacitImage.GenerateThumbnail
      rw [hinv2, hmiss2]
      simp [hdds2]
    rw [e1, e2]
  · have hdds2 : ¬(s2.Filetype = tFileType.DDS ∧ env2.contextOk = false) := by
      rw [← hft, ← hctx]
      exact hdds
    rw [generateThumbnail_write s1 env1 hinv1 hmiss1 hdds,
        generateThumbnail_write s2 env2 hinv2 hmiss2 hdds2]
    rw [← hname, ← hft, ← hload, ← hf]

/-- A first worker run context for the cache-key witness. -/
def keyImgA : TacitImage := { TacitImage.mkEmpty "k.png" tFileType.PNG with LoadedTime := 4 }

/-- A second worker run context: same file identity, different process state. -/
def keyImgB : TacitImage := { TacitImage.mkEmpty "k.png" tFileType.PNG with TexIDPrimary := 9 }

/-- The decode environment of the unchanged source file for the witness: the
raster decoder yields the same 2-by-2 picture in both runs. -/
def keyLoadEnv : LoadEnv := ⟨none, none, some ⟨2, 2, fun _ _ => ⟨9, 8, 7, 6⟩⟩, 32, 7, 99⟩

/-- The first run's environment. -/
def keyEnvA : GenEnv := ⟨some ⟨10, 20, 30⟩, none, true, keyLoadEnv, "cache/"⟩

/-- The second run's environment: a separate run (a separate record) observing
the same unchanged file. -/
def keyEnvB : GenEnv := ⟨some ⟨10, 20, 30⟩, none, true, keyLoadEnv, "cache/"⟩

/-- Witness for C6: two concrete runs in different aggregate states over the
same unmodified file compute the same key and filename and produce the same —
actually present — cache write. -/
theorem thumbnail_cache_key_deterministic_witness :
    keyImgA.Filename = keyImgB.Filename ∧
    keyEnvA.fileInfo = keyEnvB.fileInfo ∧
    keyEnvA.cacheDir = keyEnvB.cacheDir ∧
    keyImgA.Filetype = keyImgB.Filetype ∧
    keyImgA.ThumbnailPicture.IsValid = false ∧
    keyImgB.ThumbnailPicture.IsValid = false ∧
    keyEnvA.cacheHit = none ∧
    keyEnvB.cacheHit = none ∧
    keyEnvA.contextOk = keyEnvB.contextOk ∧
    keyEnvA.loadEnv = keyEnvB.loadEnv ∧
    keyImgA.LoadedTime ≠ keyImgB.LoadedTime ∧
    workerCacheKey keyImgA keyEnvA = workerCacheKey keyImgB keyEnvB ∧
    workerCacheFile keyImgA keyEnvA = workerCacheFile keyImgB keyEnvB ∧
    (keyImgA.GenerateThumbnail keyEnvA).2 = (keyImgB.GenerateThumbnail keyEnvB).2 ∧
    ((keyImgA.GenerateThumbnail keyEnvA).2).isSome = true := by
  have h := thumbnail_cache_key_deterministic keyImgA keyImgB keyEnvA keyEnvB rfl rfl rfl
  exact ⟨rfl, rfl, rfl, rfl, by decide, by decide, rfl, rfl, rfl, rfl, by decide,
    h.1, h.2.1, h.2.2 rfl (by decide) (by decide) rfl rfl rfl rfl, by rfl⟩

/-- The intermediate size at the claim's concrete source 400x200. -/
lemma thumbDims_concrete : thumbnailDims ThumbWidthC ThumbHeightC 400 200 = (128, 64) := by
  norm_num [thumbnailDims, ThumbWidthC, ThumbHeightC, tRound]

/-- The pixel read of a centre crop, written with explicit offsets. -/
lemma crop_pix (p : tPicture) (tw th : Nat) (c : tPixel) (x y : Nat)
    (hv : p.IsValid = true) (htw : 0 < tw) (hth : 0 < th) :
    (p.Crop tw th c).Pix x y =
      (if 0 ≤ (x : Int) + ((p.Width : Int) - (tw : Int)) / 2 ∧
          (x : Int) + ((p.Width : Int) - (tw : Int)) / 2 < (p.Width : Int) ∧
          0 ≤ (y : Int) + ((p.Height : Int) - (th : Int)) / 2 ∧
          (y : Int) + ((p.Height : Int) - (th : Int)) / 2 < (p.Height : Int) then
        p.Pix ((x : Int) + ((p.Width : Int) - (tw : Int)) / 2).toNat
              ((y : Int) + ((p.Height : Int) - (th : Int)) / 2).toNat
      else c) := by
  simp [tPicture.Crop, hv, htw, hth]

/-- The size of a centre crop of a valid picture. -/
lemma crop_size (p : tPicture) (tw th : Nat) (c : tPixel)
    (hv : p.IsValid = true) (htw : 0 < tw) (hth : 0 < th) :
    (p.Crop tw th c).Width = tw ∧ (p.Crop tw th c).Height = th := by
  simp [tPicture.Crop, hv, htw, hth]

/-- C5: the worker picks the axis with the strictly smaller scale factor,
sets it exactly to the target and rounds the other axis (so at least one axis
matches the target exactly); for source 400x200 against the 128x128 target
the intermediate resample is exactly 128x64 and the centre crop to 128x128
leaves rows 0-31 and 96-127 fully transparent with the middle rows windowing
the resampled image. -/
theorem thumbnail_aspect_resample_crop :
    (∀ tw th srcW srcH : Nat, 0 < srcW → 0 < srcH →
      (((tw : ℚ) / (srcW : ℚ) < (th : ℚ) / (srcH : ℚ)) →
        thumbnailDims tw th srcW srcH =
          ((tw : Int), tRound ((srcH : ℚ) * ((tw : ℚ) / (srcW : ℚ))))) ∧
      (((th : ℚ) / (srcH : ℚ) < (tw : ℚ) / (srcW : ℚ)) →
        thumbnailDims tw th srcW srcH =
          (tRound ((srcW : ℚ) * ((th : ℚ) / (srcH : ℚ))), (th : Int))) ∧
      ((thumbnailDims tw th srcW srcH).1 = (tw : Int) ∨
       (thumbnailDims tw th srcW srcH).2 = (th : Int))) ∧
    thumbnailDims ThumbWidthC ThumbHeightC 400 200 = (128, 64) ∧
    (∀ pic : tPicture, pic.Width = 400 → pic.Height = 200 →
      (thumbProcess pic).Width = 128 ∧
      (thumbProcess pic).Height = 128 ∧
      (∀ x < 128, ∀ y < 32, (thumbProcess pic).Pix x y = tPixel.transparent) ∧
      (∀ x < 128, ∀ y, 96 ≤ y → y < 128 → (thumbProcess pic).Pix x y = tPixel.transparent) ∧
      (∀ x < 128, ∀ y, 32 ≤ y → y < 96 →
        (thumbProcess pic).Pix x y = pic.Pix (x * 400 / 128) ((y - 32) * 200 / 64))) := by
  refine ⟨?_, thumbDims_concrete, ?_⟩
  · intro tw th srcW srcH hsw hsh
    refine ⟨?_, ?_, ?_⟩
    · intro h
      unfold thumbnailDims
      rw [if_pos h]
    · intro h
      unfold thumbnailDims
      rw [if_neg (lt_asymm h)]
    · unfold thumbnailDims
      by_cases h : (tw : ℚ) / (srcW : ℚ) < (th : ℚ) / (srcH : ℚ)
      · rw [if_pos h]
        exact Or.inl rfl
      · rw [if_neg h]
        exact Or.inr rfl
  · intro pic hw hh
    have hval : pic.IsValid = true := by
      simp [tPicture.IsValid, hw, hh]
    have hP : thumbProcess pic =
        (pic.Resample 128 64).Crop ThumbWidthC ThumbHeightC tPixel.transparent := by
      unfold thumbProcess
      rw [hw, hh, thumbDims_concrete]
      rfl
    have hres : pic.Resample 128 64 =
        ⟨128, 64, fun x y => pic.Pix (x * 400 / 128) (y * 200 / 64)⟩ := by
      simp [tPicture.Resample, hval, hw, hh]
    have hrval : (⟨128, 64, fun x y => pic.Pix (x * 400 / 128) (y * 200 / 64)⟩ :
        tPicture).IsValid = true := rfl
    have d1 : ((128 : Int) - 128) / 2 = 0 := by decide
    have d2 : ((64 : Int) - 128) / 2 = -32 := by decide
    refine ⟨?_, ?_, ?_, ?_, ?_⟩
    · rw [hP, hres]
      exact (crop_size _ _ _ _ hrval (by norm_num [ThumbWidthC]) (by norm_num [ThumbHeightC])).1
    · rw [hP, hres]
      exact (crop_size _ _ _ _ hrval (by norm_num [ThumbWidthC]) (by norm_num [ThumbHeightC])).2
    · intro x hx y hy
      rw [hP, hres,
        crop_pix _ _ _ _ _ _ hrval (by norm_num [ThumbWidthC]) (by norm_num [ThumbHeightC])]
      simp only [ThumbWidthC, ThumbHeightC, Nat.cast_ofNat]
      rw [d1, d2]
      rw [if_neg (by omega)]
    · intro x hx y h1 h2
      rw [hP, hres,
        crop_pix _ _ _ _ _ _ hrval (by norm_num [ThumbWidthC]) (by norm_num [ThumbHeightC])]
      simp only [ThumbWidthC, ThumbHeightC, Nat.cast_ofNat]
      rw [d1, d2]
      rw [if_neg (by omega)]
    · intro x hx y h1 h2
      rw [hP, hres,
        crop_pix _ _ _ _ _ _ hrval (by norm_num [ThumbWidthC]) (by norm_num [ThumbHeightC])]
      simp only [ThumbWidthC, ThumbHeightC, Nat.cast_ofNat]
      rw [d1, d2]
      rw [if_pos (by omega)]
      have t1 : ((x : Int) + 0).toNat = x := by omega
      have t2 : ((y : Int) + -32).toNat = y - 32 := by omega
      rw [t1, t2]

/-- A concrete 400x200 source for the resample-crop witness. -/
def srcPic400 : tPicture := ⟨400, 200, fun _ _ => tPixel.black⟩

/-- Witness for C5 at the concrete 400x200 source. -/
theorem thumbnail_aspect_resample_crop_witness :
    srcPic400.Width = 400 ∧ srcPic400.Height = 200 ∧
    (thumbProcess srcPic400).Width = 128 ∧
    (thumbProcess srcPic400).Height = 128 ∧
    (thumbProcess srcPic400).Pix 0 0 = tPixel.transparent ∧
    (thumbProcess srcPic400).Pix 0 127 = tPixel.transparent := by
  have h := (thumbnail_aspect_resample_crop).2.2 srcPic400 rfl rfl
  exact ⟨rfl, rfl, h.1, h.2.1,
    h.2.2.1 0 (by norm_num) 0 (by norm_num),
    h.2.2.2.1 0 (by norm_num) 127 (by norm_num) (by norm_num)⟩

/-- The nonexistent-path worker environment: no file info, no cache entry,
every decoder fails. -/
def missingPngEnv : GenEnv := ⟨none, none, true, failAllEnv, "cache/"⟩

/-- The initial process state of the nonexistent-path scenario. -/
def scenarioInit : ThumbSys := ThumbSys.init (fun _ => "missing.png") (fun _ => tFileType.PNG)

/-- The state after the admitted request and the worker's silent failure. -/
def scenarioAfterWorker : ThumbSys :=
  thumbRun 4 [ThumbEvent.request 0, ThumbEvent.workerDone missingPngEnv 0] scenarioInit

/-- The owner's first poll after completion. -/
def scenarioBind : ThumbSys × Nat := bindStep 7 0 scenarioAfterWorker

/-- The state after the subsequent unrequest. -/
def scenarioAfterUnrequest : ThumbSys := unrequestStep 0 scenarioBind.1

/-- C9: requesting a thumbnail for a nonexistent path (admitted at counter 0)
runs a worker that fails silently: afterwards requested is true and the
thumbnail buffer invalid; the owner's next `BindThumbnail` poll joins the
worker, clears running and returns the not-available sentinel 0; and a
subsequent `UnrequestThumbnail` — whose guard demands not running and an
invalid result buffer — resets requested to false. -/
theorem nonexistent_path_thumbnail_scenario :
    (scenarioAfterWorker.imgs 0).ThumbnailRequested = true ∧
    (scenarioAfterWorker.imgs 0).ThumbnailPicture.IsValid = false ∧
    scenarioBind.2 = 0 ∧
    (scenarioBind.1.imgs 0).ThumbnailRequested = true ∧
    (scenarioBind.1.imgs 0).ThumbnailThreadRunning = false ∧
    (scenarioBind.1.imgs 0).ThumbnailPicture.IsValid = false ∧
    (scenarioAfterUnrequest.imgs 0).ThumbnailRequested = false := by
  decide

/-- Membership of (x, y) in one of the six face cells of the 4-by-3 cross:
front (1,1), back (3,1), right (2,1), left (0,1), top (1,2), bottom (1,0), in
cell units of (w, h) with row 0 at the bottom. -/
def crossCovered (w h x y : Nat) : Prop :=
  (w ≤ x ∧ x < 2 * w ∧ h ≤ y ∧ y < 2 * h) ∨
  (3 * w ≤ x ∧ x < 4 * w ∧ h ≤ y ∧ y < 2 * h) ∨
  (2 * w ≤ x ∧ x < 3 * w ∧ h ≤ y ∧ y < 2 * h) ∨
  (x < w ∧ h ≤ y ∧ y < 2 * h) ∨
  (w ≤ x ∧ x < 2 * w ∧ 2 * h ≤ y ∧ y < 3 * h) ∨
  (w ≤ x ∧ x < 2 * w ∧ y < h)

instance (w h x y : Nat) : Decidable (crossCovered w h x y) := by
  unfold crossCovered
  infer_instance

/-- A blit keeps the destination width. -/
lemma blit_width (dst src : tPicture) (ox oy : Nat) :
    (dst.blit src ox oy).Width = dst.Width := rfl

/-- A blit keeps the destination height. -/
lemma blit_height (dst src : tPicture) (ox oy : Nat) :
    (dst.blit src ox oy).Height = dst.Height := rfl

/-- The width of a constant fill. -/
lemma fill_width (w h : Nat) (c : tPixel) : (tPicture.fill w h c).Width = w := rfl

/-- The height of a constant fill. -/
lemma fill_height (w h : Nat) (c : tPixel) : (tPicture.fill w h c).Height = h := rfl

/-- The pixel of a constant fill. -/
lemma fill_pix (w h : Nat) (c : tPixel) (x y : Nat) : (tPicture.fill w h c).Pix x y = c := rfl

/-- The pointwise reading of a blit of a literal source picture. -/
lemma blit_pix (dst : tPicture) (sw sh : Nat) (g : Nat → Nat → tPixel) (ox oy x y : Nat) :
    (dst.blit ⟨sw, sh, g⟩ ox oy).Pix x y =
      if ox ≤ x ∧ x < ox + sw ∧ oy ≤ y ∧ y < oy + sh then g (x - ox) (y - oy)
      else dst.Pix x y := rfl

set_option maxHeartbeats 1600000 in
/-- C4: for a loaded cube source whose six faces all have size (w, h), the
decode order makes the front (+Z) face the first picture, the alt composite
has dimensions (4w, 3h), the six faces sit at the fixed cross cells — front
(1,1), back (3,1), right (2,1), left (0,1), top (1,2), bottom (1,0), row 0 at
the bottom — and every point of the canvas outside the six cells is the
transparent fill. -/
theorem cubemap_cross_layout (cm : tCubemap) (w h : Nat) (s : TacitImage)
    (hw : 0 < w) (hh : 0 < h)
    (hfaces : cm.PosX.TexWidth = w ∧ cm.PosX.TexHeight = h ∧
              cm.NegX.TexWidth = w ∧ cm.NegX.TexHeight = h ∧
              cm.PosY.TexWidth = w ∧ cm.PosY.TexHeight = h ∧
              cm.NegY.TexWidth = w ∧ cm.NegY.TexHeight = h ∧
              cm.PosZ.TexWidth = w ∧ cm.PosZ.TexHeight = h ∧
              cm.NegZ.TexWidth = w ∧ cm.NegZ.TexHeight = h)
    (hcm : s.DDSCubemap = some cm) (hp : s.Pictures = []) :
    (s.ConvertCubemapToPicture).2 = true ∧
    (s.ConvertCubemapToPicture).1.Pictures.length = 6 ∧
    ((s.ConvertCubemapToPicture).1.CreateAltPictureDDSCubemap).Width = 4 * w ∧
    ((s.ConvertCubemapToPicture).1.CreateAltPictureDDSCubemap).Height = 3 * h ∧
    (∀ dx < w, ∀ dy < h,
      ((s.ConvertCubemapToPicture).1.CreateAltPictureDDSCubemap).Pix (w + dx) (h + dy) =
        cm.PosZ.DecodedPix 0 dx dy ∧
      ((s.ConvertCubemapToPicture).1.CreateAltPictureDDSCubemap).Pix (3 * w + dx) (h + dy) =
        cm.NegZ.DecodedPix 0 dx dy ∧
      ((s.ConvertCubemapToPicture).1.CreateAltPictureDDSCubemap).Pix (2 * w + dx) (h + dy) =
        cm.PosX.DecodedPix 0 dx dy ∧
      ((s.ConvertCubemapToPicture).1.CreateAltPictureDDSCubemap).Pix dx (h + dy) =
        cm.NegX.DecodedPix 0 dx dy ∧
      ((s.ConvertCubemapToPicture).1.CreateAltPictureDDSCubemap).Pix (w + dx) (2 * h + dy) =
        cm.PosY.DecodedPix 0 dx dy ∧
      ((s.ConvertCubemapToPicture).1.CreateAltPictureDDSCubemap).Pix (w + dx) dy =
        cm.NegY.DecodedPix 0 dx dy) ∧
    (∀ x < 4 * w, ∀ y < 3 * h, ¬crossCovered w h x y →
      ((s.ConvertCubemapToPicture).1.CreateAltPictureDDSCubemap).Pix x y =
        tPixel.transparent) := by
  obtain ⟨hxw, hxh, _, _, _, _, _, _, _, _, _, _⟩ := hfaces
  have hconv : (s.ConvertCubemapToPicture).1.Pictures =
      [⟨w, h, cm.PosZ.DecodedPix 0⟩, ⟨w, h, cm.NegZ.DecodedPix 0⟩,
       ⟨w, h, cm.PosX.DecodedPix 0⟩, ⟨w, h, cm.NegX.DecodedPix 0⟩,
       ⟨w, h, cm.PosY.DecodedPix 0⟩, ⟨w, h, cm.NegY.DecodedPix 0⟩] := by
    simp [TacitImage.ConvertCubemapToPicture, hcm, hp, hxw, hxh]
  refine ⟨?_, ?_, ?_, ?_, ?_, ?_⟩
  · simp [TacitImage.ConvertCubemapToPicture, hcm, hp]
  · simp [hconv]
  · simp only [TacitImage.CreateAltPictureDDSCubemap, hconv, blit_width, fill_width]
    omega
  · simp only [TacitImage.CreateAltPictureDDSCubemap, hconv, blit_height, fill_height]
    omega
  · intro dx hdx dy hdy
    refine ⟨?_, ?_, ?_, ?_, ?_, ?_⟩ <;>
    · simp only [TacitImage.CreateAltPictureDDSCubemap, hconv, blit_pix, fill_pix]
      split_ifs <;>
        first
          | rfl
          | (exfalso; omega)
          | simp only [Nat.add_sub_cancel_left, Nat.sub_zero]
  · intro x hx y hy hcov
    simp only [crossCovered] at hcov
    simp only [TacitImage.CreateAltPictureDDSCubemap, hconv, blit_pix, fill_pix]
    split_ifs <;>
      first
        | rfl
        | (exfalso; omega)

/-- A concrete 1-by-1 face texture with a distinguishing red channel. -/
def faceTex (n : Nat) : tTexture :=
  ⟨1, 1, 1, tPixelFormat.BC1DXT1, true, fun _ _ _ => ⟨n, 0, 0, 255⟩⟩

/-- A concrete cubemap with six distinguishable faces. -/
def cubeSample : tCubemap := ⟨faceTex 2, faceTex 3, faceTex 4, faceTex 5, faceTex 0, faceTex 1⟩

/-- A fresh aggregate holding the concrete cubemap. -/
def cubeImg : TacitImage :=
  { TacitImage.mkEmpty "c.dds" tFileType.DDS with DDSCubemap := some cubeSample }

/-- Witness for C4 at the concrete 1-by-1 cubemap. -/
theorem cubemap_cross_layout_witness :
    cubeSample.PosX.TexWidth = 1 ∧
    cubeImg.DDSCubemap = some cubeSample ∧
    cubeImg.Pictures = [] ∧
    ((cubeImg.ConvertCubemapToPicture).1.CreateAltPictureDDSCubemap).Width = 4 * 1 ∧
    ((cubeImg.ConvertCubemapToPicture).1.CreateAltPictureDDSCubemap).Pix (1 + 0) (1 + 0) =
      cubeSample.PosZ.DecodedPix 0 0 0 := by
  have h := cubemap_cross_layout cubeSample 1 1 cubeImg (by decide) (by decide)
    ⟨rfl, rfl, rfl, rfl, rfl, rfl, rfl, rfl, rfl, rfl, rfl, rfl⟩ rfl rfl
  exact ⟨rfl, rfl, rfl, h.2.2.1, (h.2.2.2.2.1 0 (by decide) 0 (by decide)).1⟩

end TacitView
